import Mathlib

/-!
Verification of the LeiAI Live2D desktop application (src/main.py) against its
natural-language specification.  The Python source is shallowly embedded:
pure string processing becomes Lean functions; the GUI/SDK side effects of
each handler become explicit traces of events and explicit state records;
exceptions raised by the vendor SDK are modelled by an oracle `Raises`
saying which SDK function raises when called.
-/

/-! ## String helpers mirroring the Python builtins used by src/main.py -/

/-- Model of Python `str.lower` on a single character (ASCII case fold;
all keywords compared in `process_user_input` are ASCII). -/
def pyCharLower (c : Char) : Char :=
  if 'A' ≤ c ∧ c ≤ 'Z' then Char.ofNat (c.toNat + 32) else c

/-- Model of Python `str.lower`. -/
def py_lower (s : String) : String := ⟨s.data.map pyCharLower⟩

/-- `needleAt needle hay`: the needle occurs at the very start of the
haystack (helper for the Python `in` substring test). -/
def needleAt : List Char → List Char → Bool
  | [], _ => true
  | _ :: _, [] => false
  | a :: as, b :: bs => a == b && needleAt as bs

/-- `subIn needle hay`: the needle occurs somewhere in the haystack. -/
def subIn (needle : List Char) : List Char → Bool
  | [] => needle.isEmpty
  | b :: t => needleAt needle (b :: t) || subIn needle t

/-- Model of the Python substring test `needle in hay`. -/
def strContains (hay needle : String) : Bool := subIn needle.data hay.data

/-- The whitespace characters stripped by Python `str.strip()` (ASCII part). -/
def isPySpace (c : Char) : Bool :=
  c == ' ' || c == '\t' || c == '\n' || c == '\r' || c == '\x0b' || c == '\x0c'

/-- Model of Python `str.strip()`. -/
def pyStrip (s : String) : String :=
  ⟨((s.data.dropWhile isPySpace).reverse.dropWhile isPySpace).reverse⟩

/-! ## The chat logic: `Live2DApp.process_user_input` (src/main.py lines 572-631)

The method picks a response from a chain of substring tests on the
lowercased input.  The two booleans are the module flag `LIVE2D_AVAILABLE`
and the app attribute `self.model_loaded` read by the branches.  Only the
returned response is modelled here; the side calls (`trigger_motion`,
`show_install_help`, `show_model_info`) mutate none of the state that the
claims below are about, and the response is queued via `root.after(500, ...)`.
-/

def process_user_input (avail loaded : Bool) (text : String) : String :=
  let tl := py_lower text
  if strContains tl "hello" || strContains tl "hi" then
    if avail && loaded then "👋 Hello! Your Live2D model is ready for interaction!"
    else "👋 Hello! The text input works even without Live2D!"
  else if strContains tl "install" || strContains tl "dependencies" then
    "📦 Installation help displayed!"
  else if strContains tl "motion" || strContains tl "move" then
    if avail && loaded then "🎭 Motion triggered! Your model should be moving now."
    else if !avail then "❌ Live2D not installed. Install dependencies first!"
    else "❌ Please load a model first to trigger motions."
  else if strContains tl "model" then
    if !avail then "❌ Live2D not available. Install: pip install pyopengltk pyautogui live2d"
    else if loaded then "✅ Live2D model is loaded and ready! Click it or use the controls."
    else "❌ No model is currently loaded. Use 'Load Model' button."
  else if strContains tl "help" then
    if avail then
      "🆘 Available commands:\n• 'hello' - Greeting + motion\n• 'motion' - Trigger random motion\n• 'model' - Check model status\n• 'install' - Show installation help\n• Click the model for interaction!"
    else
      "🆘 Text-only mode commands:\n• 'hello' - Greeting\n• 'install' - Installation help\n• 'model' - Check Live2D status\n• Install dependencies for full features!"
  else if strContains tl "info" then
    if avail && loaded then "ℹ️ Model information displayed!"
    else if !avail then "ℹ️ App running in text-only mode. Install dependencies for Live2D features."
    else "❌ No model loaded to show info for."
  else "💬 You said: '" ++ text ++ "'. Try 'help' for available commands!"

/-! Spec-side view of the same chain: a priority table of keywords, scanned
front to back, the first group with a matching keyword deciding the branch. -/

inductive Branch
  | greet | installB | motionB | modelB | helpB | infoB | echo
deriving DecidableEq, Repr

/-- The keyword priority table, in the order the spec lists the branches. -/
def keywordTable : List (List String × Branch) :=
  [ (["hello", "hi"], Branch.greet),
    (["install", "dependencies"], Branch.installB),
    (["motion", "move"], Branch.motionB),
    (["model"], Branch.modelB),
    (["help"], Branch.helpB),
    (["info"], Branch.infoB) ]

/-- Scan the table front to back; the first group with a keyword occurring
in the (already lowercased) text wins; otherwise the echo branch. -/
def firstMatch (tl : String) : List (List String × Branch) → Branch
  | [] => Branch.echo
  | (kws, b) :: rest =>
    if kws.any (fun k => strContains tl k) then b else firstMatch tl rest

/-- The branch selected for a raw input text. -/
def branchOf (text : String) : Branch := firstMatch (py_lower text) keywordTable

/-- The response each branch produces (bodies copied from the source). -/
def responseOfBranch (avail loaded : Bool) (text : String) : Branch → String
  | Branch.greet =>
    if avail && loaded then "👋 Hello! Your Live2D model is ready for interaction!"
    else "👋 Hello! The text input works even without Live2D!"
  | Branch.installB => "📦 Installation help displayed!"
  | Branch.motionB =>
    if avail && loaded then "🎭 Motion triggered! Your model should be moving now."
    else if !avail then "❌ Live2D not installed. Install dependencies first!"
    else "❌ Please load a model first to trigger motions."
  | Branch.modelB =>
    if !avail then "❌ Live2D not available. Install: pip install pyopengltk pyautogui live2d"
    else if loaded then "✅ Live2D model is loaded and ready! Click it or use the controls."
    else "❌ No model is currently loaded. Use 'Load Model' button."
  | Branch.helpB =>
    if avail then
      "🆘 Available commands:\n• 'hello' - Greeting + motion\n• 'motion' - Trigger random motion\n• 'model' - Check model status\n• 'install' - Show installation help\n• Click the model for interaction!"
    else
      "🆘 Text-only mode commands:\n• 'hello' - Greeting\n• 'install' - Installation help\n• 'model' - Check Live2D status\n• Install dependencies for full features!"
  | Branch.infoB =>
    if avail && loaded then "ℹ️ Model information displayed!"
    else if !avail then "ℹ️ App running in text-only mode. Install dependencies for Live2D features."
    else "❌ No model loaded to show info for."
  | Branch.echo => "💬 You said: '" ++ text ++ "'. Try 'help' for available commands!"

/-! ## Text submission: `Live2DApp.on_text_submit` (src/main.py lines 562-570) -/

/-- The chat-visible state touched by `on_text_submit`: the entry widget's
content, the lines of the output text area, and the messages queued through
`root.after(500, ...)` (which later append the app response). -/
structure ChatState where
  entry : String
  outputs : List String
  pending : List String
deriving DecidableEq, Repr

/-- `on_text_submit`: strip the entry text; when non-empty (Python
truthiness), echo it with the `👤 You:` prefix, clear the entry and process
it, which queues the `🤖 App:` response; otherwise do nothing. -/
def on_text_submit (avail loaded : Bool) (c : ChatState) : ChatState :=
  let text := pyStrip c.entry
  if text = "" then c
  else
    { entry := "",
      outputs := c.outputs ++ ["👤 You: " ++ text],
      pending := c.pending ++ ["🤖 App: " ++ process_user_input avail loaded text] }

/-! ## Theorems for the chat claims -/

/-- C1: `process_user_input` selects exactly one response by testing
lowercase substring matches in the fixed priority order
hello/hi, install/dependencies, motion/move, model, help, info, else echo:
the if-chain agrees with scanning the priority table and taking the first
group that matches, and any input containing "hello" (in particular one also
containing "model") gets the greeting branch. -/
theorem process_user_input_priority (avail loaded : Bool) (text : String) :
    process_user_input avail loaded text
      = responseOfBranch avail loaded text (branchOf text) ∧
    (strContains (py_lower text) "hello" = true → branchOf text = Branch.greet) := by
  constructor
  · simp only [process_user_input, branchOf, firstMatch, keywordTable,
      List.any_cons, List.any_nil, Bool.or_false]
    split_ifs <;> simp only [responseOfBranch] <;> simp [*]
  · intro h
    simp [branchOf, firstMatch, keywordTable, h]

/-- Witness for C1: the input "hello model" contains both "hello" and
"model" and gets the greeting response. -/
theorem process_user_input_priority_witness :
    strContains (py_lower "hello model") "hello" = true ∧
    branchOf "hello model" = Branch.greet :=
  ⟨by decide, (process_user_input_priority true true "hello model").2 (by decide)⟩

/-- C7: submitting "help" reaches the help branch: the response lists the
available commands and depends only on whether the Live2D dependencies are
available (full list when available, text-only list otherwise), not on
whether a model is loaded. -/
theorem help_input_produces_help_string (loaded : Bool) :
    process_user_input true loaded "help"
      = "🆘 Available commands:\n• 'hello' - Greeting + motion\n• 'motion' - Trigger random motion\n• 'model' - Check model status\n• 'install' - Show installation help\n• Click the model for interaction!" ∧
    process_user_input false loaded "help"
      = "🆘 Text-only mode commands:\n• 'hello' - Greeting\n• 'install' - Installation help\n• 'model' - Check Live2D status\n• Install dependencies for full features!" := by
  exact ⟨rfl, rfl⟩

/-- C10: submitting whitespace-only input is a complete no-op (no message
appended, nothing processed, entry not cleared); input with non-whitespace
content is echoed with the `👤 You:` prefix, the entry is cleared, and the
stripped text is processed, queueing the app response. -/
theorem on_text_submit_blank_noop (avail loaded : Bool) (c : ChatState) :
    (pyStrip c.entry = "" → on_text_submit avail loaded c = c) ∧
    (pyStrip c.entry ≠ "" →
      (on_text_submit avail loaded c).entry = "" ∧
      (on_text_submit avail loaded c).outputs
        = c.outputs ++ ["👤 You: " ++ pyStrip c.entry] ∧
      (on_text_submit avail loaded c).pending
        = c.pending ++ ["🤖 App: " ++ process_user_input avail loaded (pyStrip c.entry)]) := by
  constructor
  · intro h
    simp [on_text_submit, h]
  · intro h
    simp [on_text_submit, h]

/-- Witness for C10: entering spaces only changes nothing; entering " hi "
echoes and processes "hi". -/
theorem on_text_submit_blank_noop_witness :
    on_text_submit true false ⟨"   ", [], []⟩ = ⟨"   ", [], []⟩ ∧
    (on_text_submit true false ⟨" hi ", [], []⟩).outputs = ["👤 You: hi"] :=
  ⟨(on_text_submit_blank_noop true false ⟨"   ", [], []⟩).1 (by decide),
   by
    have h := (on_text_submit_blank_noop true false ⟨" hi ", [], []⟩).2 (by decide)
    rw [h.2.1]
    decide⟩

/-! ## The rendering frame: `Live2DOpenGLFrame` (src/main.py lines 41-204)

The wrapper object's fields that the methods read and write.  `model` is
the truthiness of `self.model` (a loaded `LAppModel` object or `None`);
mouse coordinates in `redraw` are irrelevant to every claim and are not
tracked.  SDK side effects are recorded as a trace of events; the oracle
`Raises` says which SDK function raises an exception when invoked (an
invoked call is recorded in the trace even when it raises). -/

structure FrameState where
  is_fallback : Bool
  model : Bool
  model_path : Option String
  is_initialized : Bool
  width : Nat
  height : Nat
deriving DecidableEq, Repr

/-- The vendor SDK entry points called by src/main.py. -/
inductive SdkFn
  | dispose | init | glewInit | lappModel | loadJson | resize
  | clearBuffer | update | drag | draw | randomMotion
deriving DecidableEq, Repr

/-- Observable events of a frame method: an SDK call, or a `sleep` call
with its duration in seconds. -/
inductive Ev
  | sdk (f : SdkFn)
  | sleepFor (q : ℚ)
deriving DecidableEq, Repr

/-- Exception oracle: which SDK calls raise when invoked. -/
def Raises : Type := SdkFn → Bool

/-- The oracle under which no SDK call raises. -/
def roNone : Raises := fun _ => false

/-- The oracle under which every SDK call raises. -/
def roAll : Raises := fun _ => true

/-- Result of a frame method: the state after it returns (or after the
exception escapes), the trace of events it performed, and whether an
exception propagated out of the method (only possible at a call site that
is not inside a `try` block). -/
structure MRes where
  state : FrameState
  trace : List Ev
  raised : Bool
deriving DecidableEq, Repr

/-- Result of `load_model`, which additionally returns a boolean. -/
structure LoadRes where
  state : FrameState
  trace : List Ev
  ok : Bool
  raised : Bool
deriving DecidableEq, Repr

namespace Live2DOpenGLFrame

/-- The visible surface chosen by `__init__`: the fallback canvas (with
the placeholder text drawn by `show_fallback_message`) or the real
OpenGL frame. -/
inductive Surface
  | fallbackCanvas (msg : String)
  | openglFrame
deriving DecidableEq, Repr

/-- The placeholder text drawn on the fallback canvas. -/
def fallbackMessage : String :=
  "Live2D Dependencies Missing\n\nRequired packages:\n• pip install pyopengltk\n• pip install pyautogui\n• pip install live2d\n\nThe text input below still works!"

/-- `__init__` (lines 44-66): `is_fallback = not OPENGL_AVAILABLE`; in
fallback mode a canvas is created and `show_fallback_message` draws the
placeholder, otherwise the real OpenGL frame is created. -/
def frame_init (opengl_ok : Bool) (w h : Nat) : FrameState × Surface :=
  ({ is_fallback := !opengl_ok, model := false, model_path := none,
     is_initialized := false, width := w, height := h },
   if !opengl_ok then Surface.fallbackCanvas fallbackMessage
   else Surface.openglFrame)

/-- `load_model` (lines 139-156): early-out in fallback mode; when not yet
initialized, stash the path and return False; otherwise construct an
`LAppModel`, load the JSON and resize, all inside `try`, returning False
when any of it raises. -/
def load_model (ro : Raises) (s : FrameState) (p : String) : LoadRes :=
  if s.is_fallback then ⟨s, [], false, false⟩
  else if !s.is_initialized then ⟨{ s with model_path := some p }, [], false, false⟩
  else
    if ro SdkFn.lappModel then ⟨s, [Ev.sdk SdkFn.lappModel], false, false⟩
    else
      let s1 := { s with model := true }
      if ro SdkFn.loadJson then
        ⟨s1, [Ev.sdk SdkFn.lappModel, Ev.sdk SdkFn.loadJson], false, false⟩
      else if ro SdkFn.resize then
        ⟨s1, [Ev.sdk SdkFn.lappModel, Ev.sdk SdkFn.loadJson, Ev.sdk SdkFn.resize],
         false, false⟩
      else
        ⟨{ s1 with model_path := some p },
         [Ev.sdk SdkFn.lappModel, Ev.sdk SdkFn.loadJson, Ev.sdk SdkFn.resize],
         true, false⟩

/-- `initgl` (lines 114-137): early-out when the dependencies are missing
or in fallback mode; otherwise, inside `try`: drop any previous model,
`dispose`, `init`, `glewInit`, mark initialized, and if a model path is
stashed and exists on disk (`fsx`), load it.  Any raise is caught and
resets `is_initialized`. -/
def initgl (live2d_ok : Bool) (fsx : String → Bool) (ro : Raises)
    (s : FrameState) : MRes :=
  if !live2d_ok || s.is_fallback then ⟨s, [], false⟩
  else
    let s0 := { s with model := false }
    if ro SdkFn.dispose then
      ⟨{ s0 with is_initialized := false }, [Ev.sdk SdkFn.dispose], false⟩
    else if ro SdkFn.init then
      ⟨{ s0 with is_initialized := false },
       [Ev.sdk SdkFn.dispose, Ev.sdk SdkFn.init], false⟩
    else if ro SdkFn.glewInit then
      ⟨{ s0 with is_initialized := false },
       [Ev.sdk SdkFn.dispose, Ev.sdk SdkFn.init, Ev.sdk SdkFn.glewInit], false⟩
    else
      let s1 := { s0 with is_initialized := true }
      let t3 := [Ev.sdk SdkFn.dispose, Ev.sdk SdkFn.init, Ev.sdk SdkFn.glewInit]
      match s1.model_path with
      | some p =>
        if fsx p then
          let r := load_model ro s1 p
          ⟨r.state, t3 ++ r.trace, false⟩
        else ⟨s1, t3, false⟩
      | none => ⟨s1, t3, false⟩

/-- `redraw` (lines 158-182): early-out in fallback mode, when not
initialized, or when no model is loaded; otherwise, inside `try`:
`clearBuffer`, then `Update`, `Drag`, `Draw` on the model, then
`sleep(1/60)`.  (The mouse-position lookup between `clearBuffer` and
`Update` has its own inner `try` and affects only the drag coordinates,
which no claim mentions.) -/
def redraw (ro : Raises) (s : FrameState) : MRes :=
  if s.is_fallback || !s.is_initialized || !s.model then ⟨s, [], false⟩
  else
    if ro SdkFn.clearBuffer then ⟨s, [Ev.sdk SdkFn.clearBuffer], false⟩
    else if ro SdkFn.update then
      ⟨s, [Ev.sdk SdkFn.clearBuffer, Ev.sdk SdkFn.update], false⟩
    else if ro SdkFn.drag then
      ⟨s, [Ev.sdk SdkFn.clearBuffer, Ev.sdk SdkFn.update, Ev.sdk SdkFn.drag], false⟩
    else if ro SdkFn.draw then
      ⟨s, [Ev.sdk SdkFn.clearBuffer, Ev.sdk SdkFn.update, Ev.sdk SdkFn.drag,
           Ev.sdk SdkFn.draw], false⟩
    else
      ⟨s, [Ev.sdk SdkFn.clearBuffer, Ev.sdk SdkFn.update, Ev.sdk SdkFn.drag,
           Ev.sdk SdkFn.draw, Ev.sleepFor (1 / 60)], false⟩

/-- `start_random_motion` (lines 184-193): early-out in fallback mode;
with a model, `StartRandomMotion` inside `try`. -/
def start_random_motion (ro : Raises) (s : FrameState) : MRes :=
  if s.is_fallback then ⟨s, [], false⟩
  else if s.model then ⟨s, [Ev.sdk SdkFn.randomMotion], false⟩
  else ⟨s, [], false⟩

/-- `cleanup` (lines 195-204): early-out in fallback mode; release the
model, then `dispose` when initialized.  There is no `try` here, so a
raise from `dispose` propagates out of the method. -/
def cleanup (ro : Raises) (s : FrameState) : MRes :=
  if s.is_fallback then ⟨s, [], false⟩
  else
    let s1 := if s.model then { s with model := false } else s
    if s1.is_initialized then ⟨s1, [Ev.sdk SdkFn.dispose], ro SdkFn.dispose⟩
    else ⟨s1, [], false⟩

end Live2DOpenGLFrame

open Live2DOpenGLFrame in
/-- C3: with `is_fallback` set, every operation of `Live2DOpenGLFrame`
returns early with an empty SDK trace and unchanged state, `load_model`
returns False, and `__init__` with the dependencies missing shows the
fallback canvas with the placeholder message instead of the OpenGL
frame — so the text interface keeps working with no SDK ever invoked. -/
theorem fallback_ops_no_sdk (ok : Bool) (fsx : String → Bool) (ro : Raises)
    (s : FrameState) (p : String) (w h : Nat)
    (hfb : s.is_fallback = true) :
    initgl ok fsx ro s = ⟨s, [], false⟩ ∧
    load_model ro s p = ⟨s, [], false, false⟩ ∧
    redraw ro s = ⟨s, [], false⟩ ∧
    start_random_motion ro s = ⟨s, [], false⟩ ∧
    cleanup ro s = ⟨s, [], false⟩ ∧
    (frame_init false w h).2 = Surface.fallbackCanvas fallbackMessage := by
  refine ⟨?_, ?_, ?_, ?_, ?_, ?_⟩ <;>
    simp [initgl, load_model, redraw, start_random_motion, cleanup,
      frame_init, hfb]

/-- Witness for C3: a concrete fallback frame. -/
theorem fallback_ops_no_sdk_witness :
    Live2DOpenGLFrame.load_model roAll
      ⟨true, false, none, false, 600, 400⟩ "m.model.json"
      = ⟨⟨true, false, none, false, 600, 400⟩, [], false, false⟩ :=
  (fallback_ops_no_sdk true (fun _ => true) roAll
    ⟨true, false, none, false, 600, 400⟩ "m.model.json" 600 400 rfl).2.1

/-! ## SDK call discipline (claims C5 and C8) -/

namespace Live2DOpenGLFrame

lemma initgl_no_raise (ok : Bool) (fsx : String → Bool) (ro : Raises)
    (s : FrameState) : (initgl ok fsx ro s).raised = false := by
  simp only [initgl]
  (repeat' split) <;> rfl

lemma load_model_no_raise (ro : Raises) (s : FrameState) (p : String) :
    (load_model ro s p).raised = false := by
  simp only [load_model]
  (repeat' split) <;> rfl

lemma redraw_no_raise (ro : Raises) (s : FrameState) :
    (redraw ro s).raised = false := by
  simp only [redraw]
  (repeat' split) <;> rfl

lemma start_random_motion_no_raise (ro : Raises) (s : FrameState) :
    (start_random_motion ro s).raised = false := by
  simp only [start_random_motion]
  (repeat' split) <;> rfl

lemma initgl_load_order (ok : Bool) (fsx : String → Bool) (ro : Raises)
    (s : FrameState)
    (h : Ev.sdk SdkFn.loadJson ∈ (initgl ok fsx ro s).trace) :
    (initgl ok fsx ro s).trace.take 5
      = [Ev.sdk SdkFn.dispose, Ev.sdk SdkFn.init, Ev.sdk SdkFn.glewInit,
         Ev.sdk SdkFn.lappModel, Ev.sdk SdkFn.loadJson] := by
  by_cases h0 : (!ok || s.is_fallback) = true
  · simp [initgl, h0] at h
  · have hor : (!ok || s.is_fallback) = false := by
      cases hv : (!ok || s.is_fallback) with
      | false => rfl
      | true => exact absurd hv h0
    have hok : ok = true := by
      cases ok with
      | false => simp at hor
      | true => rfl
    have hfb : s.is_fallback = false := by
      cases hf : s.is_fallback with
      | false => rfl
      | true => rw [hf, Bool.or_true] at hor; exact absurd hor (by simp)
    by_cases h1 : ro SdkFn.dispose = true
    · simp [initgl, h0, h1] at h
    · by_cases h2 : ro SdkFn.init = true
      · simp [initgl, h0, h1, h2] at h
      · by_cases h3 : ro SdkFn.glewInit = true
        · simp [initgl, h0, h1, h2, h3] at h
        · rcases hp : s.model_path with _ | p
          · simp [initgl, h0, h1, h2, h3, hp] at h
          · by_cases h4 : fsx p = true
            · by_cases h5 : ro SdkFn.lappModel = true
              · simp [initgl, load_model, h0, h1, h2, h3, h4, h5, hp, hfb, hok] at h
              · by_cases h6 : ro SdkFn.loadJson = true <;>
                  by_cases h7 : ro SdkFn.resize = true <;>
                  simp [initgl, load_model, h0, h1, h2, h3, h4, h5, h6, h7,
                    hp, hfb, hok]
            · simp [initgl, h0, h1, h2, h3, h4, hp] at h

lemma redraw_draw_order (ro : Raises) (s : FrameState)
    (h : Ev.sdk SdkFn.draw ∈ (redraw ro s).trace) :
    (redraw ro s).trace.take 4
      = [Ev.sdk SdkFn.clearBuffer, Ev.sdk SdkFn.update, Ev.sdk SdkFn.drag,
         Ev.sdk SdkFn.draw] := by
  by_cases h0 : (s.is_fallback || !s.is_initialized || !s.model) = true
  · simp [redraw, h0] at h
  · by_cases h1 : ro SdkFn.clearBuffer = true
    · simp [redraw, h0, h1] at h
    · by_cases h2 : ro SdkFn.update = true
      · simp [redraw, h0, h1, h2] at h
      · by_cases h3 : ro SdkFn.drag = true
        · simp [redraw, h0, h1, h2, h3] at h
        · by_cases h4 : ro SdkFn.draw = true <;>
            simp [redraw, h0, h1, h2, h3, h4]

lemma cleanup_trace_shape (ro : Raises) (s : FrameState)
    (h : (cleanup ro s).trace ≠ []) :
    (cleanup ro s).trace = [Ev.sdk SdkFn.dispose] ∧
    (cleanup ro s).state.model = false := by
  by_cases h0 : s.is_fallback = true
  · simp [cleanup, h0] at h
  · by_cases h1 : s.is_initialized = true
    · by_cases h2 : s.model = true <;> simp [cleanup, h0, h1, h2]
    · by_cases h2 : s.model = true <;> simp [cleanup, h0, h1, h2] at h

end Live2DOpenGLFrame

open Live2DOpenGLFrame in
/-- C5 (amended): the SDK functions are invoked in the order
init/load/update/draw/dispose — whenever `initgl` reaches a model load,
its trace begins `dispose, init, glewInit` (re-initialization) followed by
the model construction and JSON load, so `live2d.init` and `glewInit`
precede any load; whenever `redraw` reaches `Draw`, its trace begins
`clearBuffer, Update, Drag, Draw` in that order; `cleanup` calls `dispose`
only with the model already released; and the SDK call sites inside
`initgl`, `load_model`, `redraw` and `start_random_motion` are wrapped in
exception handlers, so no SDK exception propagates from them — but the
`dispose` call in `cleanup` is NOT wrapped (see the counterexample). -/
theorem sdk_call_discipline (ok : Bool) (fsx : String → Bool) (ro : Raises)
    (s : FrameState) (p : String) :
    (initgl ok fsx ro s).raised = false ∧
    (load_model ro s p).raised = false ∧
    (redraw ro s).raised = false ∧
    (start_random_motion ro s).raised = false ∧
    (Ev.sdk SdkFn.loadJson ∈ (initgl ok fsx ro s).trace →
      (initgl ok fsx ro s).trace.take 5
        = [Ev.sdk SdkFn.dispose, Ev.sdk SdkFn.init, Ev.sdk SdkFn.glewInit,
           Ev.sdk SdkFn.lappModel, Ev.sdk SdkFn.loadJson]) ∧
    (Ev.sdk SdkFn.draw ∈ (redraw ro s).trace →
      (redraw ro s).trace.take 4
        = [Ev.sdk SdkFn.clearBuffer, Ev.sdk SdkFn.update, Ev.sdk SdkFn.drag,
           Ev.sdk SdkFn.draw]) ∧
    ((cleanup ro s).trace ≠ [] →
      (cleanup ro s).trace = [Ev.sdk SdkFn.dispose] ∧
      (cleanup ro s).state.model = false) :=
  ⟨initgl_no_raise ok fsx ro s, load_model_no_raise ro s p,
   redraw_no_raise ro s, start_random_motion_no_raise ro s,
   initgl_load_order ok fsx ro s, redraw_draw_order ro s,
   cleanup_trace_shape ro s⟩

open Live2DOpenGLFrame in
/-- Counterexample for C5 as stated: the `live2d.dispose()` call in
`cleanup` (src/main.py line 204) is not inside any `try`, so when it
raises, the exception propagates out of `cleanup` to its caller. -/
theorem cleanup_dispose_unguarded :
    (cleanup roAll ⟨false, true, none, true, 600, 400⟩).raised = true := rfl

open Live2DOpenGLFrame in
/-- Witness for C5: under the never-raising oracle, `initgl` on a frame
with a stashed existing model path produces the full ordered trace, and a
ready frame's `redraw` performs the four SDK calls in order. -/
theorem sdk_call_discipline_witness :
    (initgl true (fun _ => true) roNone
        ⟨false, false, some "m.model.json", false, 600, 400⟩).trace.take 5
      = [Ev.sdk SdkFn.dispose, Ev.sdk SdkFn.init, Ev.sdk SdkFn.glewInit,
         Ev.sdk SdkFn.lappModel, Ev.sdk SdkFn.loadJson] ∧
    (redraw roNone ⟨false, true, none, true, 600, 400⟩).trace.take 4
      = [Ev.sdk SdkFn.clearBuffer, Ev.sdk SdkFn.update, Ev.sdk SdkFn.drag,
         Ev.sdk SdkFn.draw] :=
  ⟨(sdk_call_discipline true (fun _ => true) roNone
      ⟨false, false, some "m.model.json", false, 600, 400⟩ "q").2.2.2.2.1
      (by decide),
   (sdk_call_discipline true (fun _ => true) roNone
      ⟨false, true, none, true, 600, 400⟩ "q").2.2.2.2.2.1 (by decide)⟩

open Live2DOpenGLFrame in
/-- C8: every invocation of `redraw` that actually renders a frame
(reaches and completes the `Draw` call) ends by sleeping for 1/60 second:
its event trace is exactly clearBuffer, Update, Drag, Draw followed by
`sleep(1/60)`, which is its last event. -/
theorem redraw_renders_then_sleeps (ro : Raises) (s : FrameState)
    (hdraw : Ev.sdk SdkFn.draw ∈ (redraw ro s).trace)
    (hok : ro SdkFn.draw = false) :
    (redraw ro s).trace
      = [Ev.sdk SdkFn.clearBuffer, Ev.sdk SdkFn.update, Ev.sdk SdkFn.drag,
         Ev.sdk SdkFn.draw, Ev.sleepFor (1 / 60)] ∧
    (redraw ro s).trace.getLast? = some (Ev.sleepFor (1 / 60)) := by
  by_cases h0 : (s.is_fallback || !s.is_initialized || !s.model) = true
  · simp [redraw, h0] at hdraw
  · by_cases h1 : ro SdkFn.clearBuffer = true
    · simp [redraw, h0, h1] at hdraw
    · by_cases h2 : ro SdkFn.update = true
      · simp [redraw, h0, h1, h2] at hdraw
      · by_cases h3 : ro SdkFn.drag = true
        · simp [redraw, h0, h1, h2, h3] at hdraw
        · simp [redraw, h0, h1, h2, h3, hok]

open Live2DOpenGLFrame in
/-- Witness for C8: a ready frame under the never-raising oracle renders
and then sleeps for 1/60 s. -/
theorem redraw_renders_then_sleeps_witness :
    (redraw roNone ⟨false, true, none, true, 600, 400⟩).trace.getLast?
      = some (Ev.sleepFor (1 / 60)) :=
  (redraw_renders_then_sleeps roNone ⟨false, true, none, true, 600, 400⟩
    (by decide) rfl).2

/-! ## The application: `Live2DApp` (src/main.py lines 206-642)

`Live2DOpenGLFrame` is a plain class (it does not inherit from the real
`OpenGLFrame`), so the attributes the wrapper object owns are exactly the
ones assigned in its `__init__` plus its methods.  `hasattr` over the
wrapper is modelled by membership in that list, which matters because
`Live2DApp.load_model` and `Live2DApp.toggle_animation` guard every access
to `self.opengl_frame.animate` behind `hasattr(self.opengl_frame,
'animate')`. -/

/-- The names the wrapper object responds to: the attributes assigned in
`Live2DOpenGLFrame.__init__` (lines 44-66: `is_fallback`, `model`,
`model_path`, `is_initialized`, `width`, `height`, `master`, and either
`fallback_canvas` or `opengl_frame`) plus its method names (lines 68-204). -/
def wrapperAttrNames (fb : Bool) : List String :=
  ["is_fallback", "model", "model_path", "is_initialized", "width", "height",
   "master", if fb then "fallback_canvas" else "opengl_frame",
   "pack", "bind", "winfo_rootx", "winfo_rooty", "show_fallback_message",
   "initgl", "load_model", "redraw", "start_random_motion", "cleanup"]

/-- Model of `hasattr(self.opengl_frame, nm)` inside `Live2DApp`. -/
def wrapper_hasattr (fb : Bool) (nm : String) : Bool :=
  (wrapperAttrNames fb).contains nm

/-- The `Live2DApp` state the control handlers read and write:
`LIVE2D_AVAILABLE`, `self.model_loaded`, the `state` of the three
model-dependent buttons, the animation flag attribute (`has_animate` is
whether the wrapper object has an `animate` attribute at all, `animate`
its value when present), and the animation button's label. -/
structure AppCtl where
  live2d_available : Bool
  model_loaded : Bool
  motion_enabled : Bool
  anim_enabled : Bool
  info_enabled : Bool
  has_animate : Bool
  animate : Bool
  anim_text : String
deriving DecidableEq, Repr

namespace Live2DApp

/-- `setup_controls` (lines 285-347): the Random Motion, Animation and
Model Info buttons are created with `state=tk.DISABLED if not
LIVE2D_AVAILABLE else tk.DISABLED` — disabled in both cases. -/
def setup_controls (a : AppCtl) : AppCtl :=
  { a with motion_enabled := false, anim_enabled := false,
           info_enabled := false, anim_text := "Start Animation" }

/-- The app state right after `__init__`/`setup_ui`: `model_loaded =
False` (line 215), buttons from `setup_controls`, and the wrapper frame
(fallback iff the dependencies are missing) has no `animate` attribute
beyond what `wrapper_hasattr` reports. -/
def initApp (avail : Bool) : AppCtl :=
  setup_controls
    { live2d_available := avail, model_loaded := false,
      motion_enabled := false, anim_enabled := false, info_enabled := false,
      has_animate := wrapper_hasattr (!avail) "animate",
      animate := false, anim_text := "Start Animation" }

/-- The text of the `show_install_help` dialog (lines 429-451). -/
def installHelpText : String :=
  "Live2D Dependencies Installation\n\nRequired packages:\n• pyopengltk - OpenGL integration\n• pyautogui - Mouse interaction\n• live2d - Live2D model support\n\nInstallation commands:\n\n1. Basic installation:\n   pip install pyopengltk pyautogui live2d\n\n2. If live2d is not available:\n   Check alternative packages or build from source\n\n3. Linux users may need:\n   sudo apt-get install python3-opengl mesa-utils\n\n4. macOS users may need:\n   brew install mesa\n\nAfter installation, restart the application.\n"

/-- Model of `os.path.basename` for the POSIX separator. -/
def os_path_basename (p : String) : String := (p.splitOn "/").getLastD ""

/-- The UI-visible outcome of `Live2DApp.load_model`. -/
structure LoadOut where
  ctl : AppCtl
  dialogs : List (String × String)
  outputs : List String
  frame_load_calls : Nat
  raised : Bool
deriving DecidableEq, Repr

/-- `load_model` (lines 455-502): without the dependencies, show the
install help; otherwise open the file dialog (`file` is its result,
`none` when cancelled) and, for a chosen file, call the frame's
`load_model` once (`frame_ok` its boolean result).  On success set
`model_loaded`, enable the three buttons, print the two messages and — if
the wrapper had an `animate` attribute — start the animation; on failure
(`raise Exception("Model loading failed")` caught by the handler) show a
modal error dialog and an output message, leaving the state untouched.
The `except` clause catches every exception, so the method never raises
and never terminates the process. -/
def load_model (a : AppCtl) (file : Option String) (frame_ok : Bool) :
    LoadOut :=
  if !a.live2d_available then
    { ctl := a, dialogs := [("Installation Help", installHelpText)],
      outputs := ["📋 Installation help displayed"],
      frame_load_calls := 0, raised := false }
  else
    match file with
    | none => { ctl := a, dialogs := [], outputs := [], frame_load_calls := 0,
                raised := false }
    | some p =>
      if frame_ok then
        let a1 := { a with model_loaded := true, motion_enabled := true,
                           anim_enabled := true, info_enabled := true }
        let a2 := if a1.has_animate then
            { a1 with animate := true, anim_text := "Stop Animation" }
          else a1
        { ctl := a2, dialogs := [],
          outputs := ["🎯 Successfully loaded: " ++ os_path_basename p,
                      "🎮 Use controls above or click the model for interaction"],
          frame_load_calls := 1, raised := false }
      else
        { ctl := a,
          dialogs := [("Error", "Failed to load model: Model loading failed")],
          outputs := ["❌ Failed to load model: Model loading failed"],
          frame_load_calls := 1, raised := false }

/-- `toggle_animation` (lines 516-529): no-op unless the dependencies are
present and a model is loaded; then, only when the wrapper has an
`animate` attribute, flip it and relabel the button. -/
def toggle_animation (a : AppCtl) : AppCtl × List String :=
  if !a.live2d_available || !a.model_loaded then (a, [])
  else if a.has_animate then
    if a.animate then
      ({ a with animate := false, anim_text := "Start Animation" },
       ["⏸️ Animation paused"])
    else
      ({ a with animate := true, anim_text := "Stop Animation" },
       ["▶️ Animation resumed"])
  else (a, [])

/-- `trigger_motion` (lines 504-514): prints a message; mutates no
control state. -/
def trigger_motion (a : AppCtl) : AppCtl × List String :=
  if !a.live2d_available then
    (a, ["❌ Live2D not available - install dependencies first"])
  else if a.model_loaded then (a, ["🎭 Random motion triggered!"])
  else (a, ["❌ No model loaded yet"])

/-- `show_model_info` (lines 531-553): shows a dialog or a message;
mutates no control state. -/
def show_model_info (a : AppCtl) : AppCtl := a

/-- `on_model_click` (lines 555-560): `trigger_motion` or a message;
mutates no control state. -/
def on_model_click (a : AppCtl) : AppCtl := (trigger_motion a).1

end Live2DApp

/-- The user-interface events that can reach the `Live2DApp` handlers
after startup.  `load` carries the file-dialog result and the frame
loader's boolean result; `chat` covers `on_text_submit` /
`process_user_input`, whose side calls (`trigger_motion`,
`show_install_help`, `show_model_info`) mutate no control state. -/
inductive AppEvent
  | load (file : Option String) (frame_ok : Bool)
  | toggleAnim
  | motionClick
  | modelInfoClick
  | installHelpClick
  | modelClick
  | chat (t : String)
deriving DecidableEq, Repr

/-- One step of the application's event loop, dispatching to the handler
each widget is wired to. -/
def appStep (a : AppCtl) : AppEvent → AppCtl
  | AppEvent.load f r => (Live2DApp.load_model a f r).ctl
  | AppEvent.toggleAnim => (Live2DApp.toggle_animation a).1
  | AppEvent.motionClick => (Live2DApp.trigger_motion a).1
  | AppEvent.modelInfoClick => Live2DApp.show_model_info a
  | AppEvent.installHelpClick => a
  | AppEvent.modelClick => Live2DApp.on_model_click a
  | AppEvent.chat _ => a

/-- The application state after startup with availability `avail` and a
sequence of UI events. -/
def runApp (avail : Bool) (evs : List AppEvent) : AppCtl :=
  evs.foldl appStep (Live2DApp.initApp avail)

/-! ## Button-state invariant (claims C9, C2, C4) -/

/-- The three model-dependent buttons are enabled exactly when
`model_loaded` is set. -/
def ButtonsInv (a : AppCtl) : Prop :=
  a.motion_enabled = a.model_loaded ∧ a.anim_enabled = a.model_loaded ∧
  a.info_enabled = a.model_loaded

lemma trigger_motion_fst (a : AppCtl) : (Live2DApp.trigger_motion a).1 = a := by
  simp only [Live2DApp.trigger_motion]
  (repeat' split) <;> rfl

lemma appStep_buttons (a : AppCtl) (e : AppEvent) (h : ButtonsInv a) :
    ButtonsInv (appStep a e) := by
  obtain ⟨h1, h2, h3⟩ := h
  cases e with
  | load f r =>
    simp only [appStep, Live2DApp.load_model]
    (repeat' split) <;> simp_all [ButtonsInv]
  | toggleAnim =>
    simp only [appStep, Live2DApp.toggle_animation]
    (repeat' split) <;> simp_all [ButtonsInv]
  | motionClick => simpa [appStep, trigger_motion_fst] using ⟨h1, h2, h3⟩
  | modelInfoClick =>
    simpa [appStep, Live2DApp.show_model_info] using ⟨h1, h2, h3⟩
  | installHelpClick => simpa [appStep] using ⟨h1, h2, h3⟩
  | modelClick =>
    simpa [appStep, Live2DApp.on_model_click, trigger_motion_fst]
      using ⟨h1, h2, h3⟩
  | chat t => simpa [appStep] using ⟨h1, h2, h3⟩

lemma foldl_buttons :
    ∀ (evs : List AppEvent) (a : AppCtl), ButtonsInv a →
      ButtonsInv (evs.foldl appStep a)
  | [], _, h => h
  | e :: t, a, h => foldl_buttons t (appStep a e) (appStep_buttons a e h)

/-- C9: in every startup configuration the Random Motion, Animation and
Model Info buttons are created disabled, and in every reachable state each
of them is enabled only when `model_loaded` is `True` (they become enabled
only through the successful-load branch, the only writer of
`model_loaded`). -/
theorem buttons_enabled_only_with_model (avail : Bool) (evs : List AppEvent) :
    ((Live2DApp.initApp avail).motion_enabled = false ∧
     (Live2DApp.initApp avail).anim_enabled = false ∧
     (Live2DApp.initApp avail).info_enabled = false) ∧
    ((runApp avail evs).motion_enabled = true →
      (runApp avail evs).model_loaded = true) ∧
    ((runApp avail evs).anim_enabled = true →
      (runApp avail evs).model_loaded = true) ∧
    ((runApp avail evs).info_enabled = true →
      (runApp avail evs).model_loaded = true) := by
  have hinit : ButtonsInv (Live2DApp.initApp avail) := by
    simp [ButtonsInv, Live2DApp.initApp, Live2DApp.setup_controls]
  have hrun := foldl_buttons evs (Live2DApp.initApp avail) hinit
  rw [runApp] at *
  exact ⟨⟨hinit.1.trans rfl, hinit.2.1.trans rfl, hinit.2.2.trans rfl⟩,
    fun h => hrun.1 ▸ h, fun h => hrun.2.1 ▸ h, fun h => hrun.2.2 ▸ h⟩

/-- Witness for C9: after a successful load the motion button is enabled
and the model is indeed loaded. -/
theorem buttons_enabled_only_with_model_witness :
    (runApp true [AppEvent.load (some "m.model.json") true]).motion_enabled
      = true ∧
    (runApp true [AppEvent.load (some "m.model.json") true]).model_loaded
      = true :=
  ⟨by decide,
   (buttons_enabled_only_with_model true
      [AppEvent.load (some "m.model.json") true]).2.1 (by decide)⟩

/-- C2 (code evidence): the wrapper object never has an `animate`
attribute (in either startup configuration), so both guarded writes to it
are dead: after a successful model load the animation flag is still
unset, and `toggle_animation` — with dependencies present and a model
loaded — is the identity instead of flipping the flag.  This contradicts
the claim (and the code's own comments/button labels), which promise that
a successful load starts the animation and that the button toggles it. -/
theorem animate_flag_dead_code :
    wrapper_hasattr false "animate" = false ∧
    wrapper_hasattr true "animate" = false ∧
    (runApp true [AppEvent.load (some "model.json") true]).model_loaded
      = true ∧
    (runApp true [AppEvent.load (some "model.json") true]).animate = false ∧
    appStep (runApp true [AppEvent.load (some "model.json") true])
        AppEvent.toggleAnim
      = runApp true [AppEvent.load (some "model.json") true] := by
  decide

/-- C4: when the frame loader reports failure for a chosen file, the
exception raised at line 498 is caught: a modal error dialog and an
output-area message are produced, the loader was invoked exactly once (no
retry), no exception escapes (the process keeps running), and the control
state — `model_loaded`, the three button states, the animation flag — is
returned unchanged. -/
theorem load_failure_surfaced (a : AppCtl) (p : String)
    (hav : a.live2d_available = true) :
    (Live2DApp.load_model a (some p) false).ctl = a ∧
    (Live2DApp.load_model a (some p) false).dialogs
      = [("Error", "Failed to load model: Model loading failed")] ∧
    (Live2DApp.load_model a (some p) false).outputs
      = ["❌ Failed to load model: Model loading failed"] ∧
    (Live2DApp.load_model a (some p) false).frame_load_calls = 1 ∧
    (Live2DApp.load_model a (some p) false).raised = false := by
  simp [Live2DApp.load_model, hav]

/-- Witness for C4: a failing load from the fresh app state changes
nothing and shows the error dialog. -/
theorem load_failure_surfaced_witness :
    (Live2DApp.load_model (Live2DApp.initApp true) (some "m.model.json")
        false).ctl = Live2DApp.initApp true ∧
    (Live2DApp.load_model (Live2DApp.initApp true) (some "m.model.json")
        false).frame_load_calls = 1 :=
  ⟨(load_failure_surfaced (Live2DApp.initApp true) "m.model.json"
      (by decide)).1,
   (load_failure_surfaced (Live2DApp.initApp true) "m.model.json"
      (by decide)).2.2.2.1⟩

/-! ## Shutdown (claim C6) -/

/-- The whole application: control state, the wrapper frame's state, and
whether `root.destroy()` has run. -/
structure App where
  ctl : AppCtl
  frame : FrameState
  destroyed : Bool
deriving DecidableEq, Repr

/-- `on_closing` (lines 638-642): call the frame's `cleanup` (the
`opengl_frame` attribute is always set, and the wrapper object is always
truthy), then `root.destroy()`.  A raise escaping `cleanup` skips the
destroy.  No animation flag or timer is touched here. -/
def Live2DApp.on_closing (ro : Raises) (ap : App) : App × List Ev × Bool :=
  let r := Live2DOpenGLFrame.cleanup ro ap.frame
  if r.raised then ({ ap with frame := r.state }, r.trace, true)
  else ({ ap with frame := r.state, destroyed := true }, r.trace, false)

lemma redraw_after_cleanup (ro ro2 : Raises) (s : FrameState) :
    (Live2DOpenGLFrame.redraw ro2
      (Live2DOpenGLFrame.cleanup ro s).state).trace = [] := by
  by_cases h0 : s.is_fallback = true
  · simp [Live2DOpenGLFrame.cleanup, Live2DOpenGLFrame.redraw, h0]
  · by_cases h1 : s.is_initialized = true <;> by_cases h2 : s.model = true <;>
      simp [Live2DOpenGLFrame.cleanup, Live2DOpenGLFrame.redraw, h0, h1, h2]

/-- Counterexample for C6 as stated: closing the window with the
animation flag set calls `live2d.dispose` without the flag ever being
cleared — `on_closing` contains no flag write at all. -/
theorem on_closing_clears_no_flag :
    (Live2DApp.on_closing roNone
        ⟨⟨true, true, true, true, true, true, true, "Stop Animation"⟩,
         ⟨false, true, none, true, 600, 400⟩, false⟩).1.ctl.animate = true ∧
    Ev.sdk SdkFn.dispose ∈
      (Live2DApp.on_closing roNone
        ⟨⟨true, true, true, true, true, true, true, "Stop Animation"⟩,
         ⟨false, true, none, true, 600, 400⟩, false⟩).2.1 := by
  decide

/-- C6 (amended): on window close `on_closing` touches no animation flag
(the control state is returned verbatim); it runs the frame's `cleanup`
before `root.destroy()`, and `cleanup` releases the model before calling
`live2d.dispose`, so any `redraw` invoked after cleanup returns
immediately with no SDK call — the code prevents redraw-after-dispose
through the model check, not through a flag clear. -/
theorem shutdown_redraw_safe (ro ro2 : Raises) (ap : App) :
    (Live2DApp.on_closing ro ap).1.ctl = ap.ctl ∧
    (Live2DApp.on_closing ro ap).2.1
      = (Live2DOpenGLFrame.cleanup ro ap.frame).trace ∧
    (Live2DApp.on_closing ro ap).1.frame
      = (Live2DOpenGLFrame.cleanup ro ap.frame).state ∧
    ((Live2DApp.on_closing ro ap).2.2 = false →
      (Live2DApp.on_closing ro ap).1.destroyed = true) ∧
    (Live2DOpenGLFrame.redraw ro2
      (Live2DOpenGLFrame.cleanup ro ap.frame).state).trace = [] := by
  refine ⟨?_, ?_, ?_, ?_, redraw_after_cleanup ro ro2 ap.frame⟩ <;>
    simp only [Live2DApp.on_closing] <;> (repeat' split) <;> simp_all

/-- Witness for C6: a clean shutdown of a ready app reaches
`root.destroy()`. -/
theorem shutdown_redraw_safe_witness :
    (Live2DApp.on_closing roNone
        ⟨⟨true, true, true, true, true, false, false, "Start Animation"⟩,
         ⟨false, true, none, true, 600, 400⟩, false⟩).1.destroyed = true :=
  (shutdown_redraw_safe roNone roNone
      ⟨⟨true, true, true, true, true, false, false, "Start Animation"⟩,
       ⟨false, true, none, true, 600, 400⟩, false⟩).2.2.2.1 (by decide)
